import Mathlib

/-!
Shallow embedding of `host/lib/load_modules.cpp` (UHD module loader).

The C++ routine reads the environment variable `UHD_MODULE_PATH`, splits its
value on the platform path separator, resolves each entry against the current
working directory (`fs::system_complete`), and recursively walks each resolved
path, attempting to `dlopen`/`LoadLibrary` every file found, printing
diagnostics to stderr and never propagating a failure.

Modelling choices:
  * The filesystem is a finite map from absolute path strings to trees
    (`FSNode`); a directory node carries its entries in enumeration order,
    which fixes the platform-defined directory-iteration order.
  * The OS dynamic-loading facility is a parameter `osLoad : String → Option
    String`: `none` means the load succeeds (non-NULL handle), `some txt`
    means it fails and `txt` is the facility's own error text (what
    `dlerror()` would report) — available to the code, whether used or not.
  * Observable behaviour is a trace of `Event`s: one `attempt` per call of
    the loading primitive, plus the two stderr diagnostics (`notFound`,
    `loadError`).  Exceptions thrown by `load_module` are modelled as the
    `Option String` return value, consumed locally in `load_path`, so the
    walk is a total function into traces.
  * The filesystem is unchanged during the scan, so the `fs::exists` /
    `fs::is_directory` re-checks on recursive calls always agree with the
    enumerated tree.
-/

namespace UhdLoadModules

/-- The three compile-time platform variants of `load_modules.cpp`
(`HAVE_DLFCN_H`, `HAVE_WINDOWS_H`, and the `#else` fallback). -/
inductive Platform : Type
  | dlfcn : Platform
  | windows : Platform
  | unsupported : Platform
deriving DecidableEq

/-- `static const std::string env_path_sep` — ":" on the dlfcn and fallback
branches, ";" on the windows branch. -/
def env_path_sep : Platform → Char
  | Platform.dlfcn => ':'
  | Platform.windows => ';'
  | Platform.unsupported => ':'

/-- The OS loading facility: `none` = success, `some txt` = failure with the
facility's error text. -/
abbrev Loader := String → Option String

/-- `static void load_module(const std::string &file_name)`: returns `none`
on success and `some msg` for the `std::runtime_error` message thrown on
failure.  Note the thrown message is built only from the file name; the
facility's own error text (`osLoad`'s `some` payload) is discarded. -/
def load_module (p : Platform) (osLoad : Loader) (file_name : String) : Option String :=
  match p with
  | Platform.dlfcn =>
      match osLoad file_name with
      | none => none
      | some _ => some ("dlopen failed to load \"" ++ file_name ++ "\"")
  | Platform.windows =>
      match osLoad file_name with
      | none => none
      | some _ => some ("LoadLibrary failed to load \"" ++ file_name ++ "\"")
  | Platform.unsupported =>
      some ("Module loading not supported: Cannot load \"" ++ file_name ++ "\"")

mutual
/-- A filesystem tree: a node is a plain file or a directory whose entries
are listed in directory-iteration order. -/
inductive FSNode : Type
  | file : FSNode
  | dir : FSEntries → FSNode

/-- The ordered entries of a directory: (name, node) pairs. -/
inductive FSEntries : Type
  | nil : FSEntries
  | cons : String → FSNode → FSEntries → FSEntries
end

/-- The filesystem visible to the scan: absolute path ↦ tree rooted there. -/
def Filesystem : Type := List (String × FSNode)

/-- `fs::exists` / tree lookup for a configured top-level path. -/
def Filesystem.resolve (fs : Filesystem) (path : String) : Option FSNode :=
  match fs with
  | [] => none
  | e :: rest => if e.1 = path then some e.2 else Filesystem.resolve rest path

/-- Observable events of the scan: the two stderr diagnostics plus one
`attempt` per invocation of the loading primitive. -/
inductive Event : Type
  | notFound : String → Event
  | attempt : String → Event
  | loadError : String → Event
deriving DecidableEq

/-- Which events are the "Error: %s" load-failure diagnostics. -/
def Event.isLoadError : Event → Bool
  | Event.loadError _ => true
  | _ => false

/-- Which events are load attempts (calls of the loading primitive). -/
def Event.isAttempt : Event → Bool
  | Event.attempt _ => true
  | _ => false

/-- The stderr line an event prints (`attempt` prints nothing). -/
def Event.render : Event → Option String
  | Event.notFound path => some ("Module path \"" ++ path ++ "\" not found.")
  | Event.attempt _ => none
  | Event.loadError msg => some ("Error: " ++ msg)

/-- The events produced for one candidate file: the attempt, then — when
`load_module` throws — the one `catch` block diagnostic. -/
def candidateEvents (loadm : String → Option String) (file : String) : List Event :=
  Event.attempt file ::
    (match loadm file with
     | none => []
     | some msg => [Event.loadError msg])

mutual
/-- The body of `load_path` once the path is known to exist, structurally on
the resolved tree: a file gets a load attempt with the failure caught
locally; a directory is walked entry by entry. -/
def load_path_node (loadm : String → Option String) (path : String) : FSNode → List Event
  | FSNode.file => candidateEvents loadm path
  | FSNode.dir entries => load_path_entries loadm path entries

/-- The `directory_iterator` loop of `load_path`: recurse on each entry in
order, concatenating the traces. -/
def load_path_entries (loadm : String → Option String) (path : String) : FSEntries → List Event
  | FSEntries.nil => []
  | FSEntries.cons name node rest =>
      load_path_node loadm (path ++ "/" ++ name) node ++ load_path_entries loadm path rest
end

/-- `static void load_path(const fs::path &path)`: a missing path yields the
one "not found" diagnostic and nothing else; otherwise the tree is walked. -/
def load_path (fs : Filesystem) (loadm : String → Option String) (path : String) : List Event :=
  match fs.resolve path with
  | none => [Event.notFound path]
  | some node => load_path_node loadm path node

/-- `static const std::string MODULE_PATH_KEY`. -/
def MODULE_PATH_KEY : String := "UHD_MODULE_PATH"

/-- `static std::string name_mapper(const std::string &var_name)`. -/
def name_mapper (var_name : String) : String :=
  if var_name = MODULE_PATH_KEY then var_name else ""

/-- The `program_options` environment parse: a variable is stored only when
`name_mapper` maps it to an option name; the option defaults to `""`, so an
unset variable reads as the empty string. -/
def parsed_env_value (env : String → Option String) (var_name : String) : String :=
  if name_mapper var_name = "" then ""
  else
    match env var_name with
    | none => ""
    | some v => v

/-- `boost::split(..., boost::is_any_of(env_path_sep))` on the character
list: empty tokens (from consecutive, leading or trailing separators) are
kept, and splitting never drops or reorders characters. -/
def splitCharsAux (sep : Char) : List Char → List Char → List String
  | [], acc => [String.mk acc.reverse]
  | c :: rest, acc =>
      if c = sep then String.mk acc.reverse :: splitCharsAux sep rest []
      else splitCharsAux sep rest (c :: acc)

/-- Split a string on a separator character, boost::split-style. -/
def boost_split (sep : Char) (s : String) : List String :=
  splitCharsAux sep s.toList []

/-- POSIX-style absoluteness test for `fs::path`. -/
def isAbsolute (p : String) : Bool :=
  match p.toList with
  | [] => false
  | c :: _ => decide (c = '/')

/-- `fs::system_complete`: resolve a raw entry to an absolute path against
the current working directory. -/
def system_complete (cwd p : String) : String :=
  if isAbsolute p then p else cwd ++ "/" ++ p

/-- The `BOOST_FOREACH` loop of `load_modules`: visit each raw entry once,
in order, resolving it and walking it. -/
def visitAll (fs : Filesystem) (loadm : String → Option String) (cwd : String) :
    List String → List Event
  | [] => []
  | e :: rest => load_path fs loadm (system_complete cwd e) ++ visitAll fs loadm cwd rest

/-- `UHD_STATIC_BLOCK(load_modules)`: the whole scan, as a function of the
environment, the filesystem, the OS loading facility, the platform and the
current working directory. -/
def load_modules (env : String → Option String) (fs : Filesystem) (osLoad : Loader)
    (p : Platform) (cwd : String) : List Event :=
  if parsed_env_value env MODULE_PATH_KEY = "" then []
  else
    visitAll fs (load_module p osLoad) cwd
      (boost_split (env_path_sep p) (parsed_env_value env MODULE_PATH_KEY))

mutual
/-- All candidate files in a walked tree, in visit order, with the path each
would be loaded under. -/
def filesOf (path : String) : FSNode → List String
  | FSNode.file => [path]
  | FSNode.dir entries => filesOfEntries path entries

/-- `filesOf` over a directory's entries, in enumeration order. -/
def filesOfEntries (path : String) : FSEntries → List String
  | FSEntries.nil => []
  | FSEntries.cons name node rest =>
      filesOf (path ++ "/" ++ name) node ++ filesOfEntries path rest
end

/-- The trace a flat list of candidate files produces: each candidate in
order, its attempt followed by its (possible) failure diagnostic. -/
def allCandidateEvents (loadm : String → Option String) : List String → List Event
  | [] => []
  | f :: rest => candidateEvents loadm f ++ allCandidateEvents loadm rest

/-- Does the character list start with the pattern `pat`? -/
def charsStartWith : List Char → List Char → Bool
  | [], _ => true
  | _ :: _, [] => false
  | p :: ps, c :: cs => decide (p = c) && charsStartWith ps cs

/-- Does the character list contain `pat` as a contiguous run? -/
def charsContain (pat : List Char) : List Char → Bool
  | [] => charsStartWith pat []
  | c :: cs => charsStartWith pat (c :: cs) || charsContain pat cs

/-- Substring test: does `s` contain `pat`? -/
def strContains (s pat : String) : Bool :=
  charsContain pat.toList s.toList

mutual
/-- Directory-nesting depth of a tree: a plain file is at depth 0, a
directory adds one level above the deepest of its entries. -/
def FSNode.nestingDepth : FSNode → Nat
  | FSNode.file => 0
  | FSNode.dir entries => FSEntries.maxChildDepth entries + 1

/-- Deepest nesting depth among a directory's entries. -/
def FSEntries.maxChildDepth : FSEntries → Nat
  | FSEntries.nil => 0
  | FSEntries.cons _ node rest =>
      max (FSNode.nestingDepth node) (FSEntries.maxChildDepth rest)
end

mutual
/-- The walk instrumented with the stack budget: `fuel` is the number of
stack frames available to `load_path`.  Entering a node consumes one frame;
the entries loop of a directory runs inside that frame, so siblings share
the remaining budget.  `none` models running out of stack. -/
def load_path_fuel (loadm : String → Option String) (fuel : Nat) (path : String) :
    FSNode → Option (List Event)
  | FSNode.file =>
      if fuel = 0 then none else some (candidateEvents loadm path)
  | FSNode.dir entries =>
      if fuel = 0 then none else load_path_entries_fuel loadm (fuel - 1) path entries

/-- The fueled entries loop: each entry is walked with the same remaining
budget (siblings run in the same parent frame). -/
def load_path_entries_fuel (loadm : String → Option String) (fuel : Nat) (path : String) :
    FSEntries → Option (List Event)
  | FSEntries.nil => some []
  | FSEntries.cons name node rest =>
      match load_path_fuel loadm fuel (path ++ "/" ++ name) node,
          load_path_entries_fuel loadm fuel path rest with
      | some a, some b => some (a ++ b)
      | _, _ => none
end

theorem allCandidateEvents_append (loadm : String → Option String) (xs ys : List String) :
    allCandidateEvents loadm (xs ++ ys) =
      allCandidateEvents loadm xs ++ allCandidateEvents loadm ys := by
  induction xs with
  | nil => simp [allCandidateEvents]
  | cons f rest ih => simp [allCandidateEvents, ih]

mutual
/-- Characterization of the walk: its trace is exactly the per-candidate
events of the tree's files, flattened in visit order. -/
theorem load_path_node_eq (loadm : String → Option String) (path : String) (node : FSNode) :
    load_path_node loadm path node = allCandidateEvents loadm (filesOf path node) := by
  cases node with
  | file => simp [load_path_node, filesOf, allCandidateEvents]
  | dir entries =>
      simpa [load_path_node, filesOf] using load_path_entries_eq loadm path entries

theorem load_path_entries_eq (loadm : String → Option String) (path : String) (es : FSEntries) :
    load_path_entries loadm path es = allCandidateEvents loadm (filesOfEntries path es) := by
  cases es with
  | nil => simp [load_path_entries, filesOfEntries, allCandidateEvents]
  | cons name node rest =>
      simp [load_path_entries, filesOfEntries, allCandidateEvents_append,
        load_path_node_eq loadm (path ++ "/" ++ name) node,
        load_path_entries_eq loadm path rest]
end

@[simp] theorem isLoadError_notFound (p : String) :
    Event.isLoadError (Event.notFound p) = false := rfl

@[simp] theorem isLoadError_attempt (f : String) :
    Event.isLoadError (Event.attempt f) = false := rfl

@[simp] theorem isLoadError_loadError (m : String) :
    Event.isLoadError (Event.loadError m) = true := rfl

theorem countP_loadError_allCandidateEvents (loadm : String → Option String) (files : List String) :
    (allCandidateEvents loadm files).countP (fun e => Event.isLoadError e) =
      files.countP (fun f => (loadm f).isSome) := by
  induction files with
  | nil => simp [allCandidateEvents]
  | cons f rest ih =>
      cases h : loadm f with
      | none =>
          simp [allCandidateEvents, candidateEvents, h, List.countP_cons, ih]
      | some msg =>
          simp [allCandidateEvents, candidateEvents, h, List.countP_cons, ih]

theorem attempt_mem_allCandidateEvents (loadm : String → Option String) (files : List String)
    (f : String) (h : f ∈ files) :
    Event.attempt f ∈ allCandidateEvents loadm files := by
  induction files with
  | nil => cases h
  | cons g rest ih =>
      cases h with
      | head => simp [allCandidateEvents, candidateEvents]
      | tail _ hm => simp [allCandidateEvents, ih hm]

theorem filter_nonError_allCandidateEvents (loadm : String → Option String)
    (files : List String) :
    (allCandidateEvents loadm files).filter (fun e => !Event.isLoadError e) =
      files.map (fun f => Event.attempt f) := by
  induction files with
  | nil => simp [allCandidateEvents]
  | cons f rest ih =>
      cases h : loadm f with
      | none => simp [allCandidateEvents, candidateEvents, h, ih]
      | some msg => simp [allCandidateEvents, candidateEvents, h, ih]

/-- The non-error part of a `load_path` trace depends only on the filesystem,
not on the loading primitive. -/
theorem filter_nonError_load_path (fs : Filesystem) (loadm loadm' : String → Option String)
    (path : String) :
    (load_path fs loadm path).filter (fun e => !Event.isLoadError e) =
      (load_path fs loadm' path).filter (fun e => !Event.isLoadError e) := by
  unfold load_path
  cases fs.resolve path with
  | none => rfl
  | some node =>
      simp [load_path_node_eq, filter_nonError_allCandidateEvents]

theorem filter_nonError_visitAll (fs : Filesystem) (loadm loadm' : String → Option String)
    (cwd : String) (entries : List String) :
    (visitAll fs loadm cwd entries).filter (fun e => !Event.isLoadError e) =
      (visitAll fs loadm' cwd entries).filter (fun e => !Event.isLoadError e) := by
  induction entries with
  | nil => rfl
  | cons e rest ih =>
      simp only [visitAll, List.filter_append, ih,
        filter_nonError_load_path fs loadm loadm' (system_complete cwd e)]

mutual
theorem load_path_fuel_spec (loadm : String → Option String) (fuel : Nat) (path : String)
    (node : FSNode) (h : FSNode.nestingDepth node < fuel) :
    load_path_fuel loadm fuel path node = some (load_path_node loadm path node) := by
  cases node with
  | file =>
      have hne : fuel ≠ 0 := by
        intro h0
        rw [h0] at h
        exact Nat.not_lt_zero _ h
      simp [load_path_fuel, load_path_node, hne]
  | dir entries =>
      have hne : fuel ≠ 0 := by
        intro h0
        rw [h0] at h
        exact Nat.not_lt_zero _ h
      have hlt : FSEntries.maxChildDepth entries < fuel - 1 := by
        have := h
        simp [FSNode.nestingDepth] at this
        omega
      simp [load_path_fuel, load_path_node, hne,
        load_path_entries_fuel_spec loadm (fuel - 1) path entries hlt]

theorem load_path_entries_fuel_spec (loadm : String → Option String) (fuel : Nat)
    (path : String) (es : FSEntries) (h : FSEntries.maxChildDepth es < fuel) :
    load_path_entries_fuel loadm fuel path es = some (load_path_entries loadm path es) := by
  cases es with
  | nil => simp [load_path_entries_fuel, load_path_entries]
  | cons name node rest =>
      have h1 : FSNode.nestingDepth node < fuel := by
        have := h
        simp [FSEntries.maxChildDepth] at this
        omega
      have h2 : FSEntries.maxChildDepth rest < fuel := by
        have := h
        simp [FSEntries.maxChildDepth] at this
        omega
      simp [load_path_entries_fuel, load_path_entries,
        load_path_fuel_spec loadm fuel (path ++ "/" ++ name) node h1,
        load_path_entries_fuel_spec loadm fuel path rest h2]
end

/-- C1: every per-file load failure is caught locally inside the walk: the
walk is a total function into traces (nothing propagates to the caller), its
trace lists every candidate in order — so processing continues past each
failure — and the number of "load failed" diagnostics equals the number of
failing candidates, i.e. exactly one diagnostic per failing file. -/
theorem c1_load_failures_contained (loadm : String → Option String) (path : String)
    (node : FSNode) :
    load_path_node loadm path node = allCandidateEvents loadm (filesOf path node)
      ∧ (load_path_node loadm path node).countP (fun e => Event.isLoadError e)
        = (filesOf path node).countP (fun f => (loadm f).isSome) := by
  constructor
  · exact load_path_node_eq loadm path node
  · rw [load_path_node_eq loadm path node]
    exact countP_loadError_allCandidateEvents loadm (filesOf path node)

/-- C2 counterexample: with the dlfcn facility reporting the error text
"invalid ELF header", the one emitted diagnostic line is
`Error: dlopen failed to load "/m/f.so"`, which names the file but does not
contain the facility's error text — the code never reads `dlerror()`. -/
theorem c2_counterexample :
    load_modules (fun k => if k = MODULE_PATH_KEY then some "/m/f.so" else none)
        [("/m/f.so", FSNode.file)]
        (fun _ => some "invalid ELF header") Platform.dlfcn "/cwd"
      = [Event.attempt "/m/f.so", Event.loadError "dlopen failed to load \"/m/f.so\""]
      ∧ Event.render (Event.loadError "dlopen failed to load \"/m/f.so\"")
        = some "Error: dlopen failed to load \"/m/f.so\""
      ∧ strContains "Error: dlopen failed to load \"/m/f.so\"" "invalid ELF header" = false
      ∧ strContains "Error: dlopen failed to load \"/m/f.so\"" "/m/f.so" = true := by
  decide

/-- C2 amended: the failure diagnostic includes the file path and names the
loading facility that failed, but not the facility's underlying error text:
the thrown message is literally `dlopen failed to load "<path>"`, and it is
the same whatever error text the facility reports. -/
theorem c2_diag_names_file_not_facility_text (osLoad osLoad' : Loader) (f : String)
    (h : osLoad f ≠ none) (h' : osLoad' f ≠ none) :
    load_module Platform.dlfcn osLoad f
        = some ("dlopen failed to load \"" ++ f ++ "\"")
      ∧ load_module Platform.dlfcn osLoad f = load_module Platform.dlfcn osLoad' f := by
  cases hh : osLoad f with
  | none => exact absurd hh h
  | some t =>
      cases hh' : osLoad' f with
      | none => exact absurd hh' h'
      | some t' => exact ⟨by simp [load_module, hh], by simp [load_module, hh, hh']⟩

/-- Witness for C2 amended, at two facilities reporting different error
texts for the same file. -/
theorem c2_diag_names_file_not_facility_text_witness :
    load_module Platform.dlfcn (fun _ => some "text A") "f.so"
        = some ("dlopen failed to load \"" ++ "f.so" ++ "\"")
      ∧ load_module Platform.dlfcn (fun _ => some "text A") "f.so"
        = load_module Platform.dlfcn (fun _ => some "text B") "f.so" :=
  c2_diag_names_file_not_facility_text (fun _ => some "text A") (fun _ => some "text B")
    "f.so" (by decide) (by decide)

/-- C3: a non-empty variable value is split on the platform separator into
its ordered entries, and the scan is exactly one `load_path` visit per raw
entry, in order, each entry resolved against the current working directory —
duplicates included, nothing deduplicated. -/
theorem c3_entries_visited_in_order (env : String → Option String) (fs : Filesystem)
    (osLoad : Loader) (p : Platform) (cwd v : String)
    (hv : env MODULE_PATH_KEY = some v) (hne : v ≠ "") :
    load_modules env fs osLoad p cwd
      = visitAll fs (load_module p osLoad) cwd (boost_split (env_path_sep p) v) := by
  have h1 : parsed_env_value env MODULE_PATH_KEY = v := by
    rw [parsed_env_value, name_mapper, if_pos rfl,
      if_neg (by decide : ¬ (MODULE_PATH_KEY = "")), hv]
  rw [load_modules, h1, if_neg hne]

/-- Witness for C3: the value "a:b:a" on the dlfcn platform splits into the
three entries a, b, a, visited in that order (the duplicate kept). -/
theorem c3_entries_visited_in_order_witness :
    load_modules (fun k => if k = MODULE_PATH_KEY then some "a:b:a" else none)
        [] (fun _ => none) Platform.dlfcn "/c"
      = visitAll [] (load_module Platform.dlfcn (fun _ => none)) "/c"
          (boost_split (env_path_sep Platform.dlfcn) "a:b:a") :=
  c3_entries_visited_in_order (fun k => if k = MODULE_PATH_KEY then some "a:b:a" else none)
    [] (fun _ => none) Platform.dlfcn "/c" "a:b:a" (by decide) (by decide)

/-- C4: a configured path that does not exist yields exactly the one
"not found" diagnostic and no load attempt at all. -/
theorem c4_missing_path (fs : Filesystem) (loadm : String → Option String) (path : String)
    (h : fs.resolve path = none) :
    load_path fs loadm path = [Event.notFound path]
      ∧ (load_path fs loadm path).countP (fun e => Event.isAttempt e) = 0 := by
  constructor
  · rw [load_path, h]
  · rw [load_path, h]
    rfl

/-- Witness for C4: an empty filesystem resolves no path. -/
theorem c4_missing_path_witness :
    load_path [] (fun _ => none) "/nope" = [Event.notFound "/nope"]
      ∧ (load_path [] (fun _ => none) "/nope").countP (fun e => Event.isAttempt e) = 0 :=
  c4_missing_path [] (fun _ => none) "/nope" rfl

/-- C5: the recursive walk of an existing tree reaches every file nested at
any depth: each such file receives a load attempt. -/
theorem c5_nested_files_attempted (loadm : String → Option String) (path : String)
    (node : FSNode) (f : String) (h : f ∈ filesOf path node) :
    Event.attempt f ∈ load_path_node loadm path node := by
  rw [load_path_node_eq loadm path node]
  exact attempt_mem_allCandidateEvents loadm (filesOf path node) f h

/-- Witness for C5: in a directory with files a, b and sub-directory c
holding d, the nested file c/d gets a load attempt. -/
theorem c5_nested_files_attempted_witness :
    Event.attempt "/r/c/d" ∈ load_path_node (fun _ => none) "/r"
      (FSNode.dir (FSEntries.cons "a" FSNode.file
        (FSEntries.cons "b" FSNode.file
          (FSEntries.cons "c" (FSNode.dir (FSEntries.cons "d" FSNode.file FSEntries.nil))
            FSEntries.nil)))) :=
  c5_nested_files_attempted (fun _ => none) "/r"
    (FSNode.dir (FSEntries.cons "a" FSNode.file
      (FSEntries.cons "b" FSNode.file
        (FSEntries.cons "c" (FSNode.dir (FSEntries.cons "d" FSNode.file FSEntries.nil))
          FSEntries.nil))))
    "/r/c/d" (by decide)

/-- C6: with the module-path variable unset or empty the scan does nothing:
it emits no events at all, and its (empty) outcome does not depend on the
filesystem, the loading facility, the platform or the working directory —
no filesystem access occurs beyond the variable read. -/
theorem c6_empty_or_unset_noop (env : String → Option String) (fs fs' : Filesystem)
    (osLoad osLoad' : Loader) (p p' : Platform) (cwd cwd' : String)
    (h : env MODULE_PATH_KEY = none ∨ env MODULE_PATH_KEY = some "") :
    load_modules env fs osLoad p cwd = []
      ∧ load_modules env fs osLoad p cwd = load_modules env fs' osLoad' p' cwd' := by
  have h1 : parsed_env_value env MODULE_PATH_KEY = "" := by
    cases h with
    | inl h0 =>
        rw [parsed_env_value, name_mapper, if_pos rfl,
          if_neg (by decide : ¬ (MODULE_PATH_KEY = "")), h0]
    | inr h0 =>
        rw [parsed_env_value, name_mapper, if_pos rfl,
          if_neg (by decide : ¬ (MODULE_PATH_KEY = "")), h0]
  constructor
  · rw [load_modules, if_pos h1]
  · rw [load_modules, if_pos h1, load_modules, if_pos h1]

/-- Witness for C6: an entirely empty environment. -/
theorem c6_empty_or_unset_noop_witness :
    load_modules (fun _ => none) [("/a", FSNode.file)] (fun _ => none) Platform.dlfcn "/c" = []
      ∧ load_modules (fun _ => none) [("/a", FSNode.file)] (fun _ => none) Platform.dlfcn "/c"
        = load_modules (fun _ => none) [] (fun _ => some "e") Platform.windows "/d" :=
  c6_empty_or_unset_noop (fun _ => none) [("/a", FSNode.file)] [] (fun _ => none)
    (fun _ => some "e") Platform.dlfcn Platform.windows "/c" "/d" (Or.inl rfl)

/-- C7: on the unsupported-platform build every load attempt fails with the
fixed "not supported" error, still caught and logged per file (one attempt
event plus one diagnostic per candidate), the walk has its usual
candidate-list characterization, and everything except the load-failure
diagnostics — environment parsing, path splitting, the walk's attempts and
"not found" diagnostics — is identical to a supported (dlfcn) build. -/
theorem c7_unsupported_platform (env : String → Option String) (fs : Filesystem)
    (osLoad osLoad' : Loader) (cwd path : String) (node : FSNode) (f : String) :
    load_module Platform.unsupported osLoad f
        = some ("Module loading not supported: Cannot load \"" ++ f ++ "\"")
      ∧ candidateEvents (load_module Platform.unsupported osLoad) f
        = [Event.attempt f,
            Event.loadError ("Module loading not supported: Cannot load \"" ++ f ++ "\"")]
      ∧ load_path_node (load_module Platform.unsupported osLoad) path node
        = allCandidateEvents (load_module Platform.unsupported osLoad) (filesOf path node)
      ∧ (load_modules env fs osLoad Platform.unsupported cwd).filter
            (fun e => !Event.isLoadError e)
        = (load_modules env fs osLoad' Platform.dlfcn cwd).filter
            (fun e => !Event.isLoadError e) := by
  refine ⟨rfl, rfl, load_path_node_eq (load_module Platform.unsupported osLoad) path node, ?_⟩
  rw [load_modules, load_modules]
  by_cases hv : parsed_env_value env MODULE_PATH_KEY = ""
  · rw [if_pos hv, if_pos hv]
  · rw [if_neg hv, if_neg hv]
    exact filter_nonError_visitAll fs (load_module Platform.unsupported osLoad)
      (load_module Platform.dlfcn osLoad') cwd
      (boost_split (env_path_sep Platform.unsupported) (parsed_env_value env MODULE_PATH_KEY))

/-- C8: the scan is deterministic in its inputs: two invocations with the
same environment, the same filesystem (which fixes directory-enumeration
order), the same loading facility, platform and working directory produce
the same trace, hence the same sequence of load attempts and the same
sequence of diagnostic lines. -/
theorem c8_scan_deterministic (env env' : String → Option String) (fs fs' : Filesystem)
    (osLoad osLoad' : Loader) (p p' : Platform) (cwd cwd' : String)
    (h1 : env = env') (h2 : fs = fs') (h3 : osLoad = osLoad') (h4 : p = p') (h5 : cwd = cwd') :
    load_modules env fs osLoad p cwd = load_modules env' fs' osLoad' p' cwd'
      ∧ (load_modules env fs osLoad p cwd).filter (fun e => Event.isAttempt e)
        = (load_modules env' fs' osLoad' p' cwd').filter (fun e => Event.isAttempt e)
      ∧ (load_modules env fs osLoad p cwd).filterMap Event.render
        = (load_modules env' fs' osLoad' p' cwd').filterMap Event.render := by
  subst h1
  subst h2
  subst h3
  subst h4
  subst h5
  exact ⟨rfl, rfl, rfl⟩

/-- Witness for C8 at one concrete configuration, run twice. -/
theorem c8_scan_deterministic_witness :
    load_modules (fun k => if k = MODULE_PATH_KEY then some "/a" else none)
        [("/a", FSNode.file)] (fun _ => some "err") Platform.dlfcn "/c"
      = load_modules (fun k => if k = MODULE_PATH_KEY then some "/a" else none)
          [("/a", FSNode.file)] (fun _ => some "err") Platform.dlfcn "/c"
      ∧ (load_modules (fun k => if k = MODULE_PATH_KEY then some "/a" else none)
          [("/a", FSNode.file)] (fun _ => some "err") Platform.dlfcn "/c").filter
            (fun e => Event.isAttempt e)
        = (load_modules (fun k => if k = MODULE_PATH_KEY then some "/a" else none)
            [("/a", FSNode.file)] (fun _ => some "err") Platform.dlfcn "/c").filter
              (fun e => Event.isAttempt e)
      ∧ (load_modules (fun k => if k = MODULE_PATH_KEY then some "/a" else none)
          [("/a", FSNode.file)] (fun _ => some "err") Platform.dlfcn "/c").filterMap
            Event.render
        = (load_modules (fun k => if k = MODULE_PATH_KEY then some "/a" else none)
            [("/a", FSNode.file)] (fun _ => some "err") Platform.dlfcn "/c").filterMap
              Event.render :=
  c8_scan_deterministic (fun k => if k = MODULE_PATH_KEY then some "/a" else none)
    (fun k => if k = MODULE_PATH_KEY then some "/a" else none)
    [("/a", FSNode.file)] [("/a", FSNode.file)] (fun _ => some "err") (fun _ => some "err")
    Platform.dlfcn Platform.dlfcn "/c" "/c" rfl rfl rfl rfl rfl

/-- C9: on any finite tree the walk terminates within a stack budget of one
frame per directory-nesting level: whenever the available frame count
exceeds the tree's nesting depth, the fueled walk completes (never runs out
of stack) and computes exactly the unbounded walk's trace; no other guard or
depth limit is involved. -/
theorem c9_recursion_depth_bounded (loadm : String → Option String) (fuel : Nat)
    (path : String) (node : FSNode) (h : FSNode.nestingDepth node < fuel) :
    load_path_fuel loadm fuel path node = some (load_path_node loadm path node) :=
  load_path_fuel_spec loadm fuel path node h

/-- Witness for C9: a tree of nesting depth 2 walks to completion with a
budget of 3 frames. -/
theorem c9_recursion_depth_bounded_witness :
    load_path_fuel (fun _ => none) 3 "/r"
        (FSNode.dir (FSEntries.cons "c" (FSNode.dir
          (FSEntries.cons "d" FSNode.file FSEntries.nil)) FSEntries.nil))
      = some (load_path_node (fun _ => none) "/r"
          (FSNode.dir (FSEntries.cons "c" (FSNode.dir
            (FSEntries.cons "d" FSNode.file FSEntries.nil)) FSEntries.nil))) :=
  c9_recursion_depth_bounded (fun _ => none) 3 "/r"
    (FSNode.dir (FSEntries.cons "c" (FSNode.dir
      (FSEntries.cons "d" FSNode.file FSEntries.nil)) FSEntries.nil))
    (by decide)

/-- C10: empty entries from the split are kept, not filtered: "a::b" splits
into a, an empty entry, b and "a:" into a and an empty entry; an empty entry
resolves against the working directory ("/cwd" ++ "/" ++ ""), and a value
of separators only ("::") still drives three top-level visits of the
resolved working directory, each traversing the filesystem. -/
theorem c10_empty_entries_processed :
    boost_split ':' "a::b" = ["a", "", "b"]
      ∧ boost_split ':' "a:" = ["a", ""]
      ∧ system_complete "/cwd" "" = "/cwd/"
      ∧ load_modules (fun k => if k = MODULE_PATH_KEY then some "::" else none)
          [("/cwd/", FSNode.dir (FSEntries.cons "m" FSNode.file FSEntries.nil))]
          (fun _ => none) Platform.dlfcn "/cwd"
        = [Event.attempt "/cwd//m", Event.attempt "/cwd//m", Event.attempt "/cwd//m"] := by
  decide

end UhdLoadModules
